import Mathlib

/-!
# HybridMMKV (react-native-mmkv, `cpp/HybridMMKV.cpp`)

A shallow embedding of the `HybridMMKV` hybrid object and theorems about it.

Modelling decisions.

* The object is its two fields, `instance` (here `instance_`, a keyword otherwise) and
  `isInitialized`.  The `MMKV*` pointer is an `Option E`: `none` is `nullptr`, `some e` is a
  pointer to an engine whose current state is `e`.
* Everything that is not in `HybridMMKV.cpp` is a field of `Env`: the MMKVCore engine class
  (`MMKV::mmkvWithID` and the methods called through `instance->`), the constants
  `DEFAULT_MMAP_ID`, `DEFAULT_MMAP_SIZE`, `MMKV_SINGLE_PROCESS`, `MMKV_MULTI_PROCESS`,
  `MMKV_READ_ONLY`, the platform context, the two preprocessor switches `__APPLE__` and
  `NITRO_DEBUG`, and the listener id handed out by `MMKVValueChangedListenerRegistry`.
* Every call that leaves `HybridMMKV.cpp` (engine, platform context, listener registry) is
  recorded, in program order, in the `calls` of the result.  `Logger::log` is not recorded.
* A member function ends in one of three ways (`Outcome`): it returns, it throws
  `std::runtime_error(what)`, or it evaluates `instance->...` with `instance == nullptr`.
* `std::string` is `String`; `size()` is the length in bytes, `empty()` is `size() == 0`.
  A `double` is carried as its 64-bit pattern and a buffer as its list of bytes; both are only
  passed through.  `getSize` returns the `size_t` of the engine, before its conversion to `double`.
-/

namespace Mmkv

/-! ## Data model -/

/-- Alternatives of `std::variant<std::string, double, bool, std::shared_ptr<ArrayBuffer>>`. -/
inductive Value where
  | string (s : String)
  | number (bits : Nat)
  | boolean (b : Bool)
  | buffer (bytes : List Nat)
  deriving DecidableEq, Repr

/-- Values of `enum class Mode`; `other raw` is any underlying value besides the two enumerators. -/
inductive Mode where
  | SINGLE_PROCESS
  | MULTI_PROCESS
  | other (raw : Nat)
  deriving DecidableEq, Repr

/-- Fields of `struct Configuration`, as `HybridMMKV.cpp` reads them. -/
structure Configuration where
  id : String
  path : Option String := none
  encryptionKey : Option String := none
  mode : Option Mode := none
  readOnly : Option Bool := none
  deriving DecidableEq, Repr

/-- Log level chosen by `ensureMMKVInitialized`. -/
inductive MMKVLogLevel where
  | MMKVLogDebug
  | MMKVLogWarning
  deriving DecidableEq, Repr

/-- Calls that leave `HybridMMKV.cpp`, with their arguments. -/
inductive Call where
  | getBaseDirectory
  | getAppGroupDirectory
  | initializeMMKV (rootDir : String) (logLevel : MMKVLogLevel)
  | mmkvWithID (mmapID : String) (size : Option Nat) (mode : Nat)
      (cryptKey : Option String) (rootPath : Option String)
  | actualSize
  | isReadOnly
  | mmapID
  | set (value : Value) (key : String)
  | getBool (key : String)
  | getString (key : String)
  | getDouble (key : String)
  | getBytes (key : String)
  | containsKey (key : String)
  | removeValueForKey (key : String)
  | allKeys
  | clearAll
  | reKey (cryptKey : String)
  | trim
  | clearMemoryCache
  | notifyOnValueChanged (mmkvID : String) (key : String)
  | addListener (mmkvID : String) (callback : Nat)
  | removeListener (mmkvID : String) (listenerID : Nat)
  deriving DecidableEq, Repr

/-- How a member function ends. -/
inductive Outcome (α : Type) where
  | returned (v : α)
  | threw (what : String)
  | nullDeref
  deriving DecidableEq, Repr

/-- What `HybridMMKV.cpp` takes from outside: platform, MMKVCore and listener registry.
The engine methods are functions of the engine state `E`; a mutating method gives the new state. -/
structure Env (E : Type) where
  isApple : Bool
  nitroDebug : Bool
  baseDirectory : String
  appGroupDirectory : String
  DEFAULT_MMAP_ID : String
  DEFAULT_MMAP_SIZE : Nat
  MMKV_SINGLE_PROCESS : Nat
  MMKV_MULTI_PROCESS : Nat
  MMKV_READ_ONLY : Nat
  mmkvWithID : String → Option Nat → Nat → Option String → Option String → Option E
  actualSize : E → Nat
  isReadOnly : E → Bool
  mmapID : E → String
  set : E → Value → String → E
  getBool : E → String → Bool × Bool
  getString : E → String → String × Bool
  getDouble : E → String → Nat × Bool
  getBytes : E → String → List Nat × Bool
  containsKey : E → String → Bool
  removeValueForKey : E → String → E
  allKeys : E → List String
  clearAll : E → E
  reKey : E → String → Bool × E
  trim : E → E
  clearMemoryCache : E → E
  addListener : String → Nat → Nat

/-- Fields of the `HybridMMKV` object. -/
structure HybridMMKV (E : Type) where
  instance_ : Option E
  isInitialized : Bool
  deriving DecidableEq, Repr

/-- Result of a member function: how it ended, the object afterwards, the outside calls made. -/
structure Step (E α : Type) where
  outcome : Outcome α
  self : HybridMMKV E
  calls : List Call
  deriving DecidableEq

/-- Result of `initialize`: a `Step` together with the static flag of `ensureMMKVInitialized`. -/
structure InitStep (E : Type) where
  isMMKVInitialized : Bool
  outcome : Outcome Unit
  self : HybridMMKV E
  calls : List Call
  deriving DecidableEq

/-- The disposer returned by `addOnValueChangedListener`: the two values its closure captures. -/
structure Listener where
  mmkvID : String
  listenerID : Nat
  deriving DecidableEq, Repr

/-- `std::string::size()`. -/
def size (s : String) : Nat := s.utf8ByteSize

/-- `std::string::empty()`. -/
def empty (s : String) : Bool := size s == 0

/-! ## Operations -/

/-- `ensureMMKVInitialized()`, the static flag passed in and out. -/
def ensureMMKVInitialized {E : Type} (env : Env E) (isMMKVInitialized : Bool) :
    Bool × List Call :=
  if !isMMKVInitialized then
    let baseDirectory := env.baseDirectory
    let logLevel := if env.nitroDebug then MMKVLogLevel.MMKVLogDebug else MMKVLogLevel.MMKVLogWarning
    (true, [Call.getBaseDirectory, Call.initializeMMKV baseDirectory logLevel])
  else
    (isMMKVInitialized, [])

/-- `HybridMMKV::HybridMMKV()`. -/
def HybridMMKV.new (E : Type) : HybridMMKV E :=
  { instance_ := none, isInitialized := false }

/-- `HybridMMKV::getMMKVMode`. -/
def HybridMMKV.getMMKVMode {E : Type} (env : Env E) (config : Configuration) : Outcome Nat :=
  match config.mode with
  | none => .returned env.MMKV_SINGLE_PROCESS
  | some Mode.SINGLE_PROCESS => .returned env.MMKV_SINGLE_PROCESS
  | some Mode.MULTI_PROCESS => .returned env.MMKV_MULTI_PROCESS
  | some (Mode.other _) => .threw "Invalid MMKV Mode value!"

/-- The `processedConfig` of `initialize` (default id, app-group path on Apple) and the
platform-context call made for it. -/
def processConfig {E : Type} (env : Env E) (config : Configuration) :
    Configuration × List Call :=
  let processedConfig : Configuration :=
    if empty config.id then { config with id := env.DEFAULT_MMAP_ID } else config
  if env.isApple && !processedConfig.path.isSome then
    let appGroupDirectory := env.appGroupDirectory
    if !empty appGroupDirectory then
      ({ processedConfig with path := some appGroupDirectory }, [Call.getAppGroupDirectory])
    else
      (processedConfig, [Call.getAppGroupDirectory])
  else
    (processedConfig, [])

/-- Arguments of one call of `MMKV::mmkvWithID`; `size` is absent in the Apple overload. -/
structure FactoryArgs where
  mmapID : String
  size : Option Nat
  mode : Nat
  cryptKey : Option String
  rootPath : Option String
  deriving DecidableEq, Repr

/-- The record of a factory call in `calls`. -/
def FactoryArgs.call (a : FactoryArgs) : Call :=
  Call.mmkvWithID a.mmapID a.size a.mode a.cryptKey a.rootPath

/-- The engine factory applied to its arguments. -/
def Env.create {E : Type} (env : Env E) (a : FactoryArgs) : Option E :=
  env.mmkvWithID a.mmapID a.size a.mode a.cryptKey a.rootPath

/-- The arguments `initialize` hands to `MMKV::mmkvWithID` for a processed configuration and
an already computed base mode. -/
def factoryArgs {E : Type} (env : Env E) (processedConfig : Configuration) (baseMode : Nat) :
    FactoryArgs :=
  let path := if processedConfig.path.isSome then processedConfig.path.getD "" else ""
  let encryptionKey :=
    if processedConfig.encryptionKey.isSome then processedConfig.encryptionKey.getD "" else ""
  let pathPtr := if size path > 0 then some path else none
  let encryptionKeyPtr := if size encryptionKey > 0 then some encryptionKey else none
  let mode :=
    if processedConfig.readOnly.isSome && processedConfig.readOnly.getD false then
      baseMode ||| env.MMKV_READ_ONLY
    else baseMode
  { mmapID := processedConfig.id,
    size := if env.isApple then none else some env.DEFAULT_MMAP_SIZE,
    mode := mode, cryptKey := encryptionKeyPtr, rootPath := pathPtr }

/-- The `throw` chosen by `initialize` once `instance == nullptr`. -/
def creationError (processedConfig : Configuration) : String :=
  let path := if processedConfig.path.isSome then processedConfig.path.getD "" else ""
  let encryptionKey :=
    if processedConfig.encryptionKey.isSome then processedConfig.encryptionKey.getD "" else ""
  if empty processedConfig.id then
    "Failed to create MMKV instance! `id` cannot be empty!"
  else if size encryptionKey > 16 then
    "Failed to create MMKV instance! `encryptionKey` cannot be longer than 16 bytes!"
  else if empty path then
    "Failed to create MMKV instance! `path` cannot be empty!"
  else
    "Failed to create MMKV instance!"

/-- `HybridMMKV::initialize`. -/
def HybridMMKV.initialize {E : Type} (env : Env E) (isMMKVInitialized : Bool) (self : HybridMMKV E)
    (config : Configuration) : InitStep E :=
  if self.isInitialized then
    { isMMKVInitialized := isMMKVInitialized, outcome := .returned (), self := self, calls := [] }
  else
    let lib := ensureMMKVInitialized env isMMKVInitialized
    let processed := processConfig env config
    let processedConfig := processed.1
    match HybridMMKV.getMMKVMode env processedConfig with
    | .threw what =>
      { isMMKVInitialized := lib.1, outcome := .threw what, self := self,
        calls := lib.2 ++ processed.2 }
    | .nullDeref =>
      { isMMKVInitialized := lib.1, outcome := .nullDeref, self := self,
        calls := lib.2 ++ processed.2 }
    | .returned baseMode =>
      let args := factoryArgs env processedConfig baseMode
      let calls := lib.2 ++ processed.2 ++ [args.call]
      match env.create args with
      | none =>
        { isMMKVInitialized := lib.1, outcome := .threw (creationError processedConfig),
          self := { self with instance_ := none }, calls := calls }
      | some e =>
        { isMMKVInitialized := lib.1, outcome := .returned (),
          self := { instance_ := some e, isInitialized := true }, calls := calls }

/-- `HybridMMKV::HybridMMKV(const Configuration&)`: the fields are set as in the default
constructor and `initialize(config)` runs; when it throws, no object comes into being. -/
def HybridMMKV.create {E : Type} (env : Env E) (isMMKVInitialized : Bool)
    (config : Configuration) : InitStep E :=
  HybridMMKV.initialize env isMMKVInitialized { instance_ := none, isInitialized := false } config

/-- `HybridMMKV::getSize`. -/
def HybridMMKV.getSize {E : Type} (env : Env E) (self : HybridMMKV E) : Step E Nat :=
  if !self.isInitialized || self.instance_.isNone then
    { outcome := .threw "MMKV instance not initialized!", self := self, calls := [] }
  else
    match self.instance_ with
    | none => { outcome := .nullDeref, self := self, calls := [] }
    | some e => { outcome := .returned (env.actualSize e), self := self, calls := [Call.actualSize] }

/-- `HybridMMKV::getIsReadOnly`. -/
def HybridMMKV.getIsReadOnly {E : Type} (env : Env E) (self : HybridMMKV E) : Step E Bool :=
  if !self.isInitialized || self.instance_.isNone then
    { outcome := .threw "MMKV instance not initialized!", self := self, calls := [] }
  else
    match self.instance_ with
    | none => { outcome := .nullDeref, self := self, calls := [] }
    | some e => { outcome := .returned (env.isReadOnly e), self := self, calls := [Call.isReadOnly] }

/-- `HybridMMKV::set`: the `std::visit` over the four alternatives, then the notification. -/
def HybridMMKV.set {E : Type} (env : Env E) (self : HybridMMKV E) (key : String)
    (value : Value) : Step E Unit :=
  match self.instance_ with
  | none => { outcome := .nullDeref, self := self, calls := [] }
  | some e =>
    let written :=
      match value with
      | .string string => (env.set e (.string string) key, Call.set (.string string) key)
      | .number number => (env.set e (.number number) key, Call.set (.number number) key)
      | .boolean b => (env.set e (.boolean b) key, Call.set (.boolean b) key)
      | .buffer buf => (env.set e (.buffer buf) key, Call.set (.buffer buf) key)
    { outcome := .returned (),
      self := { self with instance_ := some written.1 },
      calls := [written.2, Call.mmapID, Call.notifyOnValueChanged (env.mmapID written.1) key] }

/-- `HybridMMKV::getBoolean`. -/
def HybridMMKV.getBoolean {E : Type} (env : Env E) (self : HybridMMKV E) (key : String) :
    Step E (Option Bool) :=
  match self.instance_ with
  | none => { outcome := .nullDeref, self := self, calls := [] }
  | some e =>
    let result := (env.getBool e key).1
    let hasValue := (env.getBool e key).2
    { outcome := .returned (if hasValue then some result else none), self := self,
      calls := [Call.getBool key] }

/-- `HybridMMKV::getString`. -/
def HybridMMKV.getString {E : Type} (env : Env E) (self : HybridMMKV E) (key : String) :
    Step E (Option String) :=
  match self.instance_ with
  | none => { outcome := .nullDeref, self := self, calls := [] }
  | some e =>
    let result := (env.getString e key).1
    let hasValue := (env.getString e key).2
    { outcome := .returned (if hasValue then some result else none), self := self,
      calls := [Call.getString key] }

/-- `HybridMMKV::getNumber`. -/
def HybridMMKV.getNumber {E : Type} (env : Env E) (self : HybridMMKV E) (key : String) :
    Step E (Option Nat) :=
  match self.instance_ with
  | none => { outcome := .nullDeref, self := self, calls := [] }
  | some e =>
    let result := (env.getDouble e key).1
    let hasValue := (env.getDouble e key).2
    { outcome := .returned (if hasValue then some result else none), self := self,
      calls := [Call.getDouble key] }

/-- `HybridMMKV::getBuffer`. -/
def HybridMMKV.getBuffer {E : Type} (env : Env E) (self : HybridMMKV E) (key : String) :
    Step E (Option (List Nat)) :=
  match self.instance_ with
  | none => { outcome := .nullDeref, self := self, calls := [] }
  | some e =>
    let result := (env.getBytes e key).1
    let hasValue := (env.getBytes e key).2
    { outcome := .returned (if hasValue then some result else none), self := self,
      calls := [Call.getBytes key] }

/-- `HybridMMKV::contains`. -/
def HybridMMKV.contains {E : Type} (env : Env E) (self : HybridMMKV E) (key : String) :
    Step E Bool :=
  match self.instance_ with
  | none => { outcome := .nullDeref, self := self, calls := [] }
  | some e =>
    { outcome := .returned (env.containsKey e key), self := self, calls := [Call.containsKey key] }

/-- `HybridMMKV::remove`. -/
def HybridMMKV.remove {E : Type} (env : Env E) (self : HybridMMKV E) (key : String) :
    Step E Unit :=
  match self.instance_ with
  | none => { outcome := .nullDeref, self := self, calls := [] }
  | some e =>
    { outcome := .returned (),
      self := { self with instance_ := some (env.removeValueForKey e key) },
      calls := [Call.removeValueForKey key] }

/-- `HybridMMKV::getAllKeys`. -/
def HybridMMKV.getAllKeys {E : Type} (env : Env E) (self : HybridMMKV E) :
    Step E (List String) :=
  match self.instance_ with
  | none => { outcome := .nullDeref, self := self, calls := [] }
  | some e => { outcome := .returned (env.allKeys e), self := self, calls := [Call.allKeys] }

/-- `HybridMMKV::clearAll`. -/
def HybridMMKV.clearAll {E : Type} (env : Env E) (self : HybridMMKV E) : Step E Unit :=
  match self.instance_ with
  | none => { outcome := .nullDeref, self := self, calls := [] }
  | some e =>
    { outcome := .returned (), self := { self with instance_ := some (env.clearAll e) },
      calls := [Call.clearAll] }

/-- `HybridMMKV::recrypt`. -/
def HybridMMKV.recrypt {E : Type} (env : Env E) (self : HybridMMKV E) (key : Option String) :
    Step E Unit :=
  match self.instance_ with
  | none => { outcome := .nullDeref, self := self, calls := [] }
  | some e =>
    let rekeyed :=
      match key with
      | some k => (env.reKey e k, Call.reKey k)
      | none => (env.reKey e "", Call.reKey "")
    let successful := rekeyed.1.1
    if !successful then
      { outcome := .threw "Failed to recrypt MMKV instance!",
        self := { self with instance_ := some rekeyed.1.2 }, calls := [rekeyed.2] }
    else
      { outcome := .returned (),
        self := { self with instance_ := some rekeyed.1.2 }, calls := [rekeyed.2] }

/-- `HybridMMKV::trim`. -/
def HybridMMKV.trim {E : Type} (env : Env E) (self : HybridMMKV E) : Step E Unit :=
  match self.instance_ with
  | none => { outcome := .nullDeref, self := self, calls := [] }
  | some e =>
    { outcome := .returned (),
      self := { self with instance_ := some (env.clearMemoryCache (env.trim e)) },
      calls := [Call.trim, Call.clearMemoryCache] }

/-- `HybridMMKV::addOnValueChangedListener`; `onValueChanged` is the token of the callback. -/
def HybridMMKV.addOnValueChangedListener {E : Type} (env : Env E) (self : HybridMMKV E)
    (onValueChanged : Nat) : Step E Listener :=
  match self.instance_ with
  | none => { outcome := .nullDeref, self := self, calls := [] }
  | some e =>
    let mmkvID := env.mmapID e
    let listenerID := env.addListener (env.mmapID e) onValueChanged
    { outcome := .returned { mmkvID := mmkvID, listenerID := listenerID }, self := self,
      calls := [Call.mmapID, Call.mmapID, Call.addListener (env.mmapID e) onValueChanged] }

/-- Running the disposer of a `Listener`. -/
def Listener.remove (l : Listener) : List Call :=
  [Call.removeListener l.mmkvID l.listenerID]

/-! ## An engine to run the operations on

`SampleStore` and `sampleEnv` fill the `Env` parameter with a small in-memory engine, so that
the operations can be evaluated on concrete inputs: its factory refuses an empty id and the
directory `/proc` and accepts a key of any length, a read-only store ignores writes and
refuses `reKey`, and a store keeps the id it was created with. -/

/-- State of the sample engine. -/
structure SampleStore where
  mmapID : String
  readOnly : Bool
  cryptKey : String
  entries : List (String × Value)
  deriving DecidableEq, Repr

/-- Look a key up in the entries of a sample store. -/
def SampleStore.find (s : SampleStore) (key : String) : Option Value :=
  (s.entries.find? (fun kv => kv.1 == key)).map (fun kv => kv.2)

/-- Write an entry, unless the store is read-only. -/
def SampleStore.put (s : SampleStore) (value : Value) (key : String) : SampleStore :=
  if s.readOnly then s
  else { s with entries := (key, value) :: s.entries.filter (fun kv => kv.1 != key) }

/-- Delete an entry, unless the store is read-only. -/
def SampleStore.erase (s : SampleStore) (key : String) : SampleStore :=
  if s.readOnly then s else { s with entries := s.entries.filter (fun kv => kv.1 != key) }

/-- The sample factory: no engine for an empty id or below the directory `/proc`. -/
def sampleFactory (mmapID : String) (_size : Option Nat) (mode : Nat)
    (cryptKey : Option String) (rootPath : Option String) : Option SampleStore :=
  if mmapID == "" then none
  else if rootPath == some "/proc" then none
  else some { mmapID := mmapID, readOnly := mode &&& 32 != 0, cryptKey := cryptKey.getD "",
              entries := [] }

/-- A non-Apple environment around the sample engine, with the constants of MMKVCore. -/
def sampleEnv : Env SampleStore where
  isApple := false
  nitroDebug := false
  baseDirectory := "/data/mmkv"
  appGroupDirectory := ""
  DEFAULT_MMAP_ID := "mmkv.default"
  DEFAULT_MMAP_SIZE := 4096
  MMKV_SINGLE_PROCESS := 1
  MMKV_MULTI_PROCESS := 2
  MMKV_READ_ONLY := 32
  mmkvWithID := sampleFactory
  actualSize := fun s => s.entries.length
  isReadOnly := fun s => s.readOnly
  mmapID := fun s => s.mmapID
  set := SampleStore.put
  getBool := fun s key =>
    match s.find key with
    | some (.boolean b) => (b, true)
    | _ => (false, false)
  getString := fun s key =>
    match s.find key with
    | some (.string v) => (v, true)
    | _ => ("", false)
  getDouble := fun s key =>
    match s.find key with
    | some (.number v) => (v, true)
    | _ => (0, false)
  getBytes := fun s key =>
    match s.find key with
    | some (.buffer v) => (v, true)
    | _ => ([], false)
  containsKey := fun s key => (s.find key).isSome
  removeValueForKey := SampleStore.erase
  allKeys := fun s => s.entries.map (fun kv => kv.1)
  clearAll := fun s => if s.readOnly then s else { s with entries := [] }
  reKey := fun s cryptKey =>
    if s.readOnly then (false, s) else (true, { s with cryptKey := cryptKey })
  trim := fun s => s
  clearMemoryCache := fun s => s
  addListener := fun _ callback => callback

/-- The sample environment on an Apple platform with an app group. -/
def appleEnv : Env SampleStore :=
  { sampleEnv with isApple := true, appGroupDirectory := "/group/shared" }

/-- A writable sample object holding the entry `"k" ↦ true`, obtained by running the code:
construction with id `"app"`, then `set("k", true)`. -/
def writableObject : HybridMMKV SampleStore :=
  (HybridMMKV.set sampleEnv (HybridMMKV.create sampleEnv false { id := "app" }).self "k"
    (.boolean true)).self

/-- A read-only sample object: construction with id `"app"` and `readOnly = true`. -/
def readOnlyObject : HybridMMKV SampleStore :=
  (HybridMMKV.create sampleEnv false { id := "app", readOnly := some true }).self

/-- The base mode `getMMKVMode` returns when `config.mode` is absent or an enumerator. -/
def baseModeOf {E : Type} (env : Env E) (config : Configuration) : Nat :=
  if config.mode = some Mode.MULTI_PROCESS then env.MMKV_MULTI_PROCESS
  else env.MMKV_SINGLE_PROCESS

/-- The invariant of the two fields: `isInitialized` implies `instance != nullptr`. -/
def HybridMMKV.Inv {E : Type} (self : HybridMMKV E) : Prop :=
  self.isInitialized = true → ∃ e, self.instance_ = some e

/-- The states an object can be in: those left by a constructor that did not throw, and
those left by any public operation, in any environment, on such a state. -/
inductive Reachable {E : Type} : HybridMMKV E → Prop where
  | default : Reachable (HybridMMKV.new E)
  | created (env : Env E) (g : Bool) (config : Configuration) :
      (HybridMMKV.create env g config).outcome = .returned () →
      Reachable (HybridMMKV.create env g config).self
  | afterInitialize (env : Env E) (g : Bool) (config : Configuration) {self : HybridMMKV E} :
      Reachable self → Reachable ( HybridMMKV.initialize env g self config).self
  | afterGetSize (env : Env E) {self : HybridMMKV E} :
      Reachable self → Reachable (HybridMMKV.getSize env self).self
  | afterGetIsReadOnly (env : Env E) {self : HybridMMKV E} :
      Reachable self → Reachable (HybridMMKV.getIsReadOnly env self).self
  | afterSet (env : Env E) (key : String) (value : Value) {self : HybridMMKV E} :
      Reachable self → Reachable (HybridMMKV.set env self key value).self
  | afterGetBoolean (env : Env E) (key : String) {self : HybridMMKV E} :
      Reachable self → Reachable (HybridMMKV.getBoolean env self key).self
  | afterGetString (env : Env E) (key : String) {self : HybridMMKV E} :
      Reachable self → Reachable (HybridMMKV.getString env self key).self
  | afterGetNumber (env : Env E) (key : String) {self : HybridMMKV E} :
      Reachable self → Reachable (HybridMMKV.getNumber env self key).self
  | afterGetBuffer (env : Env E) (key : String) {self : HybridMMKV E} :
      Reachable self → Reachable (HybridMMKV.getBuffer env self key).self
  | afterContains (env : Env E) (key : String) {self : HybridMMKV E} :
      Reachable self → Reachable (HybridMMKV.contains env self key).self
  | afterRemove (env : Env E) (key : String) {self : HybridMMKV E} :
      Reachable self → Reachable (HybridMMKV.remove env self key).self
  | afterGetAllKeys (env : Env E) {self : HybridMMKV E} :
      Reachable self → Reachable (HybridMMKV.getAllKeys env self).self
  | afterClearAll (env : Env E) {self : HybridMMKV E} :
      Reachable self → Reachable (HybridMMKV.clearAll env self).self
  | afterRecrypt (env : Env E) (key : Option String) {self : HybridMMKV E} :
      Reachable self → Reachable (HybridMMKV.recrypt env self key).self
  | afterTrim (env : Env E) {self : HybridMMKV E} :
      Reachable self → Reachable (HybridMMKV.trim env self).self
  | afterAddOnValueChangedListener (env : Env E) (onValueChanged : Nat) {self : HybridMMKV E} :
      Reachable self → Reachable (HybridMMKV.addOnValueChangedListener env self onValueChanged).self

/-! ## Facts about `std::string` -/

theorem size_eq_zero_iff (s : String) : size s = 0 ↔ s = "" := by
  constructor
  · intro h
    cases s with
    | mk l =>
      cases l with
      | nil => rfl
      | cons c cs =>
        exfalso
        have hc : 0 < c.utf8Size := Char.utf8Size_pos c
        simp [size, String.utf8ByteSize, String.utf8ByteSize.go] at h
        omega
  · rintro rfl
    rfl

theorem empty_eq_true_iff (s : String) : empty s = true ↔ s = "" := by
  simp [empty, size_eq_zero_iff]

theorem empty_eq_false_iff (s : String) : empty s = false ↔ s ≠ "" := by
  simp [empty, size_eq_zero_iff]

theorem size_pos_iff (s : String) : 0 < size s ↔ s ≠ "" := by
  rw [Nat.pos_iff_ne_zero, Ne, size_eq_zero_iff]

/-! ## How `initialize` processes a configuration -/

theorem processConfig_id {E : Type} (env : Env E) (config : Configuration) :
    (processConfig env config).1.id
      = if config.id = "" then env.DEFAULT_MMAP_ID else config.id := by
  unfold processConfig
  by_cases hid : config.id = ""
  · have he : empty config.id = true := (empty_eq_true_iff _).2 hid
    simp only [he, if_true, if_pos hid]
    split_ifs <;> rfl
  · have he : empty config.id = false := (empty_eq_false_iff _).2 hid
    simp only [he, if_neg hid]
    split_ifs <;> simp_all

theorem processConfig_mode {E : Type} (env : Env E) (config : Configuration) :
    (processConfig env config).1.mode = config.mode := by
  simp only [processConfig]
  split_ifs <;> rfl

theorem processConfig_readOnly {E : Type} (env : Env E) (config : Configuration) :
    (processConfig env config).1.readOnly = config.readOnly := by
  simp only [processConfig]
  split_ifs <;> rfl

theorem processConfig_encryptionKey {E : Type} (env : Env E) (config : Configuration) :
    (processConfig env config).1.encryptionKey = config.encryptionKey := by
  simp only [processConfig]
  split_ifs <;> rfl

theorem processConfig_path_of_some {E : Type} (env : Env E) (config : Configuration)
    (p : String) (hpath : config.path = some p) :
    (processConfig env config).1.path = some p := by
  simp only [processConfig]
  split_ifs <;> simp_all

theorem getMMKVMode_processConfig {E : Type} (env : Env E) (config : Configuration) :
    HybridMMKV.getMMKVMode env (processConfig env config).1
      = HybridMMKV.getMMKVMode env config := by
  simp only [HybridMMKV.getMMKVMode, processConfig_mode]

theorem getMMKVMode_valid {E : Type} (env : Env E) (config : Configuration)
    (hmode : ∀ raw, config.mode ≠ some (Mode.other raw)) :
    HybridMMKV.getMMKVMode env config = .returned (baseModeOf env config) := by
  unfold HybridMMKV.getMMKVMode baseModeOf
  rcases hm : config.mode with _ | m
  · simp
  · cases m with
    | SINGLE_PROCESS => simp
    | MULTI_PROCESS => simp
    | other raw => exact absurd hm (hmode raw)

theorem getMMKVMode_invalid {E : Type} (env : Env E) (config : Configuration) (raw : Nat)
    (hmode : config.mode = some (Mode.other raw)) :
    HybridMMKV.getMMKVMode env config = .threw "Invalid MMKV Mode value!" := by
  simp [HybridMMKV.getMMKVMode, hmode]

theorem factoryArgs_eq {E : Type} (env : Env E) (pc : Configuration) (baseMode : Nat) :
    factoryArgs env pc baseMode =
      { mmapID := pc.id,
        size := if env.isApple then none else some env.DEFAULT_MMAP_SIZE,
        mode := if pc.readOnly = some true then baseMode ||| env.MMKV_READ_ONLY else baseMode,
        cryptKey := if pc.encryptionKey = some "" then none else pc.encryptionKey,
        rootPath := if pc.path = some "" then none else pc.path } := by
  have hk : ∀ o : Option String,
      (if size (if o.isSome then o.getD "" else "") > 0
        then some (if o.isSome then o.getD "" else "") else none)
        = if o = some "" then none else o := by
    intro o
    have h0 : ¬ (size "" > 0) := by decide
    cases o with
    | none => simp [h0]
    | some k =>
      by_cases hk : k = ""
      · subst hk
        simp [h0]
      · have hpos : 0 < size k := (size_pos_iff k).2 hk
        simp [hpos, hk]
  have hr : ∀ o : Option Bool, (o.isSome && o.getD false) = decide (o = some true) := by
    intro o
    cases o with
    | none => rfl
    | some b => cases b <;> rfl
  simp only [factoryArgs, hk, hr, decide_eq_true_eq]

theorem creationError_eq_id_iff (pc : Configuration) :
    creationError pc = "Failed to create MMKV instance! `id` cannot be empty!" ↔ pc.id = "" := by
  unfold creationError
  by_cases hid : pc.id = ""
  · have he : empty pc.id = true := (empty_eq_true_iff _).2 hid
    rw [if_pos he]
    exact iff_of_true rfl hid
  · have he : empty pc.id = false := (empty_eq_false_iff _).2 hid
    simp only [he, Bool.false_eq_true, if_false, hid, iff_false]
    split_ifs <;> decide

/-- What `initialize` does on an object that is not yet initialized, when the mode is valid:
one factory call, the last outside call made, whose result decides between success and the
`throw`. -/
theorem initialize_of_valid_mode {E : Type} (env : Env E) (g : Bool) (self : HybridMMKV E)
    (config : Configuration) (hself : self.isInitialized = false)
    (hmode : ∀ raw, config.mode ≠ some (Mode.other raw)) :
    ( HybridMMKV.initialize env g self config).calls.getLast?
        = some (factoryArgs env (processConfig env config).1 (baseModeOf env config)).call ∧
    (∀ e, env.create (factoryArgs env (processConfig env config).1 (baseModeOf env config))
          = some e →
        ( HybridMMKV.initialize env g self config).outcome = .returned () ∧
        ( HybridMMKV.initialize env g self config).self
          = { instance_ := some e, isInitialized := true }) ∧
    (env.create (factoryArgs env (processConfig env config).1 (baseModeOf env config)) = none →
        ( HybridMMKV.initialize env g self config).outcome
          = .threw (creationError (processConfig env config).1) ∧
        ( HybridMMKV.initialize env g self config).self
          = { instance_ := none, isInitialized := false }) := by
  have hm := getMMKVMode_valid env config hmode
  rw [← getMMKVMode_processConfig] at hm
  unfold HybridMMKV.initialize
  simp only [hself, Bool.false_eq_true, if_false, hm]
  generalize factoryArgs env (processConfig env config).1 (baseModeOf env config) = a
  cases hc : env.create a with
  | none => simp [hself]
  | some e => simp

/-- When the mode is not one of the two enumerators, `initialize` on an object that is not
yet initialized throws before any factory call. -/
theorem initialize_of_invalid_mode {E : Type} (env : Env E) (g : Bool) (self : HybridMMKV E)
    (config : Configuration) (raw : Nat) (hself : self.isInitialized = false)
    (hmode : config.mode = some (Mode.other raw)) :
    HybridMMKV.initialize env g self config =
      { isMMKVInitialized := (ensureMMKVInitialized env g).1,
        outcome := .threw "Invalid MMKV Mode value!", self := self,
        calls := (ensureMMKVInitialized env g).2 ++ (processConfig env config).2 } := by
  have hm := getMMKVMode_invalid env config raw hmode
  rw [← getMMKVMode_processConfig] at hm
  unfold HybridMMKV.initialize
  simp only [hself, Bool.false_eq_true, if_false, hm]

theorem creationError_of_long_key (pc : Configuration) (k : String) (hid : pc.id ≠ "")
    (hkey : pc.encryptionKey = some k) (hlong : 16 < size k) :
    creationError pc
      = "Failed to create MMKV instance! `encryptionKey` cannot be longer than 16 bytes!" := by
  have he : empty pc.id = false := (empty_eq_false_iff _).2 hid
  simp [creationError, he, hkey, hlong]

theorem creationError_of_path (pc : Configuration) (p : String) (hid : pc.id ≠ "")
    (hkey : size (pc.encryptionKey.getD "") ≤ 16) (hpath : pc.path = some p) (hp : p ≠ "") :
    creationError pc = "Failed to create MMKV instance!" := by
  have he : empty pc.id = false := (empty_eq_false_iff _).2 hid
  have hpe : empty p = false := (empty_eq_false_iff _).2 hp
  have h0 : ¬ (16 < size "") := by decide
  cases hk : pc.encryptionKey with
  | none => simp [creationError, he, hk, hpath, hpe, h0]
  | some k =>
    have hk16 : ¬ (16 < size k) := by
      rw [hk] at hkey
      exact Nat.not_lt.2 hkey
    simp [creationError, he, hk, hpath, hpe, hk16]

theorem processConfig_path_of_none {E : Type} (env : Env E) (config : Configuration)
    (hpath : config.path = none) :
    (processConfig env config).1.path
      = if env.isApple = true ∧ env.appGroupDirectory ≠ "" then some env.appGroupDirectory
        else none := by
  unfold processConfig
  by_cases hg : env.appGroupDirectory = ""
  · have he : empty env.appGroupDirectory = true := (empty_eq_true_iff _).2 hg
    simp only [he, hg]
    split_ifs <;> simp_all
  · have he : empty env.appGroupDirectory = false := (empty_eq_false_iff _).2 hg
    simp only [he]
    split_ifs <;> simp_all

theorem processConfig_with_encryptionKey {E : Type} (env : Env E) (config : Configuration)
    (k : Option String) :
    processConfig env { config with encryptionKey := k }
      = ({ (processConfig env config).1 with encryptionKey := k }, (processConfig env config).2) := by
  unfold processConfig
  simp only []
  split_ifs <;> rfl

theorem factoryArgs_empty_key {E : Type} (env : Env E) (pc : Configuration) (baseMode : Nat) :
    factoryArgs env { pc with encryptionKey := some "" } baseMode
      = factoryArgs env { pc with encryptionKey := none } baseMode := by
  simp [factoryArgs_eq]

theorem creationError_empty_key (pc : Configuration) :
    creationError { pc with encryptionKey := some "" }
      = creationError { pc with encryptionKey := none } := by
  simp [creationError]

theorem factoryArgs_empty_path {E : Type} (env : Env E) (pc : Configuration) (baseMode : Nat) :
    factoryArgs env { pc with path := some "" } baseMode
      = factoryArgs env { pc with path := none } baseMode := by
  simp [factoryArgs_eq]

theorem creationError_empty_path (pc : Configuration) :
    creationError { pc with path := some "" } = creationError { pc with path := none } := by
  simp [creationError]

theorem processConfig_with_path {E : Type} (env : Env E) (config : Configuration)
    (p : Option String) (happle : env.isApple = false) :
    processConfig env { config with path := p }
      = ({ (processConfig env config).1 with path := p }, []) := by
  unfold processConfig
  simp only [happle, Bool.false_and, Bool.false_eq_true, if_false]
  split_ifs <;> rfl

/-! ## Construction errors -/

/-- C2 (counterexample). With the empty id, `initialize` on a fresh object asks the factory
for the store `DEFAULT_MMAP_ID` (here "mmkv.default"), gets an engine, and returns normally
with the object initialized; nothing is thrown. -/
theorem empty_id_initialize_succeeds :
    HybridMMKV.initialize sampleEnv false (HybridMMKV.new SampleStore) { id := "" } =
      { isMMKVInitialized := true,
        outcome := .returned (),
        self := { instance_ := some { mmapID := "mmkv.default", readOnly := false,
                                      cryptKey := "", entries := [] },
                  isInitialized := true },
        calls := [Call.getBaseDirectory,
                  Call.initializeMMKV "/data/mmkv" MMKVLogLevel.MMKVLogWarning,
                  Call.mmkvWithID "mmkv.default" (some 4096) 1 none none] } := by
  decide

/-- C2 (amended). For every configuration whose id is the empty string (and whose mode is
valid), `initialize` on an object that is not yet initialized calls the engine factory with
`DEFAULT_MMAP_ID` in place of the id. It returns normally, initialized with the engine the
factory gives, when the factory gives one; when the factory returns null it throws and
leaves the object uninitialized, and the error is the "`id` cannot be empty!" one exactly
when `DEFAULT_MMAP_ID` is itself empty. -/
theorem initialize_empty_id_uses_default_id {E : Type} (env : Env E) (g : Bool)
    (self : HybridMMKV E) (config : Configuration)
    (hid : config.id = "") (hself : self.isInitialized = false)
    (hmode : ∀ raw, config.mode ≠ some (Mode.other raw)) :
    ∃ a : FactoryArgs,
      a.mmapID = env.DEFAULT_MMAP_ID ∧
      ( HybridMMKV.initialize env g self config).calls.getLast? = some a.call ∧
      (∀ e, env.create a = some e →
        ( HybridMMKV.initialize env g self config).outcome = .returned () ∧
        ( HybridMMKV.initialize env g self config).self
          = { instance_ := some e, isInitialized := true }) ∧
      (env.create a = none →
        ∃ what,
          ( HybridMMKV.initialize env g self config).outcome = .threw what ∧
          ( HybridMMKV.initialize env g self config).self
            = { instance_ := none, isInitialized := false } ∧
          (what = "Failed to create MMKV instance! `id` cannot be empty!"
            ↔ env.DEFAULT_MMAP_ID = "")) := by
  obtain ⟨hlast, hsome, hnone⟩ := initialize_of_valid_mode env g self config hself hmode
  have hpid : (processConfig env config).1.id = env.DEFAULT_MMAP_ID := by
    rw [processConfig_id, if_pos hid]
  refine ⟨_, ?_, hlast, hsome, fun hc => ⟨_, (hnone hc).1, (hnone hc).2, ?_⟩⟩
  · rw [factoryArgs_eq]
    exact hpid
  · rw [creationError_eq_id_iff, hpid]

/-- The sample environment, a fresh object and the configuration with the empty id. -/
theorem initialize_empty_id_uses_default_id_witness :
    ∃ a : FactoryArgs,
      a.mmapID = sampleEnv.DEFAULT_MMAP_ID ∧
      ( HybridMMKV.initialize sampleEnv false (HybridMMKV.new SampleStore)
          { id := "" }).calls.getLast? = some a.call ∧
      (∀ e, sampleEnv.create a = some e →
        ( HybridMMKV.initialize sampleEnv false (HybridMMKV.new SampleStore)
            { id := "" }).outcome = .returned () ∧
        ( HybridMMKV.initialize sampleEnv false (HybridMMKV.new SampleStore) { id := "" }).self
          = { instance_ := some e, isInitialized := true }) ∧
      (sampleEnv.create a = none →
        ∃ what,
          ( HybridMMKV.initialize sampleEnv false (HybridMMKV.new SampleStore)
              { id := "" }).outcome = .threw what ∧
          ( HybridMMKV.initialize sampleEnv false (HybridMMKV.new SampleStore) { id := "" }).self
            = { instance_ := none, isInitialized := false } ∧
          (what = "Failed to create MMKV instance! `id` cannot be empty!"
            ↔ sampleEnv.DEFAULT_MMAP_ID = "")) :=
  initialize_empty_id_uses_default_id sampleEnv false (HybridMMKV.new SampleStore) { id := "" }
    (by decide) (by decide) (by simp)

/-- C3 (counterexample). A 20-byte encryption key for which the factory returns an engine:
`initialize` returns normally and the object is initialized; no error is raised. -/
theorem long_key_initialize_succeeds :
    size "0123456789abcdefghij" = 20 ∧
    HybridMMKV.initialize sampleEnv false (HybridMMKV.new SampleStore)
        { id := "app", encryptionKey := some "0123456789abcdefghij" } =
      { isMMKVInitialized := true,
        outcome := .returned (),
        self := { instance_ := some { mmapID := "app", readOnly := false,
                                      cryptKey := "0123456789abcdefghij", entries := [] },
                  isInitialized := true },
        calls := [Call.getBaseDirectory,
                  Call.initializeMMKV "/data/mmkv" MMKVLogLevel.MMKVLogWarning,
                  Call.mmkvWithID "app" (some 4096) 1 (some "0123456789abcdefghij") none] } := by
  decide

/-- C3 (amended). For every configuration whose encryptionKey is longer than 16 bytes (with
a valid mode and an id that is non-empty after the default is applied), `initialize` on an
object that is not yet initialized passes the key to the engine factory; when the factory
returns null it throws the "`encryptionKey` cannot be longer than 16 bytes!" error and the
object stays uninitialized with a null instance, and when the factory returns an engine it
returns normally with the object initialized. -/
theorem initialize_long_key {E : Type} (env : Env E) (g : Bool) (self : HybridMMKV E)
    (config : Configuration) (k : String)
    (hkey : config.encryptionKey = some k) (hlong : 16 < size k)
    (hid : config.id ≠ "" ∨ env.DEFAULT_MMAP_ID ≠ "")
    (hself : self.isInitialized = false)
    (hmode : ∀ raw, config.mode ≠ some (Mode.other raw)) :
    ∃ a : FactoryArgs,
      a.cryptKey = some k ∧
      ( HybridMMKV.initialize env g self config).calls.getLast? = some a.call ∧
      (env.create a = none →
        ( HybridMMKV.initialize env g self config).outcome
          = .threw ("Failed to create MMKV instance! `encryptionKey` cannot be longer " ++
                    "than 16 bytes!") ∧
        ( HybridMMKV.initialize env g self config).self
          = { instance_ := none, isInitialized := false }) ∧
      (∀ e, env.create a = some e →
        ( HybridMMKV.initialize env g self config).outcome = .returned () ∧
        ( HybridMMKV.initialize env g self config).self
          = { instance_ := some e, isInitialized := true }) := by
  obtain ⟨hlast, hsome, hnone⟩ := initialize_of_valid_mode env g self config hself hmode
  have hk0 : k ≠ "" := by
    rintro rfl
    revert hlong
    decide
  have hpid : (processConfig env config).1.id ≠ "" := by
    rw [processConfig_id]
    split_ifs with h
    · rcases hid with h1 | h1
      · exact absurd h h1
      · exact h1
    · exact h
  have hpk : (processConfig env config).1.encryptionKey = some k := by
    rw [processConfig_encryptionKey, hkey]
  refine ⟨_, ?_, hlast, fun hc => ⟨?_, (hnone hc).2⟩, hsome⟩
  · rw [factoryArgs_eq]
    simp [hpk, hk0]
  · rw [(hnone hc).1, creationError_of_long_key _ k hpid hpk hlong]
    rfl

/-- The sample environment, a fresh object, a 20-byte key and a path the factory refuses. -/
theorem initialize_long_key_witness :
    ∃ a : FactoryArgs,
      a.cryptKey = some "0123456789abcdefghij" ∧
      ( HybridMMKV.initialize sampleEnv false (HybridMMKV.new SampleStore)
          { id := "app", path := some "/proc",
            encryptionKey := some "0123456789abcdefghij" }).calls.getLast? = some a.call ∧
      (sampleEnv.create a = none →
        ( HybridMMKV.initialize sampleEnv false (HybridMMKV.new SampleStore)
            { id := "app", path := some "/proc",
              encryptionKey := some "0123456789abcdefghij" }).outcome
          = .threw ("Failed to create MMKV instance! `encryptionKey` cannot be longer " ++
                    "than 16 bytes!") ∧
        ( HybridMMKV.initialize sampleEnv false (HybridMMKV.new SampleStore)
            { id := "app", path := some "/proc",
              encryptionKey := some "0123456789abcdefghij" }).self
          = { instance_ := none, isInitialized := false }) ∧
      (∀ e, sampleEnv.create a = some e →
        ( HybridMMKV.initialize sampleEnv false (HybridMMKV.new SampleStore)
            { id := "app", path := some "/proc",
              encryptionKey := some "0123456789abcdefghij" }).outcome = .returned () ∧
        ( HybridMMKV.initialize sampleEnv false (HybridMMKV.new SampleStore)
            { id := "app", path := some "/proc",
              encryptionKey := some "0123456789abcdefghij" }).self
          = { instance_ := some e, isInitialized := true }) :=
  initialize_long_key sampleEnv false (HybridMMKV.new SampleStore)
    { id := "app", path := some "/proc", encryptionKey := some "0123456789abcdefghij" }
    "0123456789abcdefghij" rfl (by decide) (Or.inl (by decide)) rfl (by simp)

/-- C4 (counterexample). A non-empty path below which the factory creates no engine, with a
non-empty id and no key: `initialize` throws the generic "Failed to create MMKV instance!",
which is not the path error. -/
theorem unopenable_path_gives_generic_error :
    sampleEnv.create { mmapID := "app", size := some 4096, mode := 1, cryptKey := none,
                       rootPath := some "/proc" } = none ∧
    ( HybridMMKV.initialize sampleEnv false (HybridMMKV.new SampleStore)
        { id := "app", path := some "/proc" }).outcome
      = .threw "Failed to create MMKV instance!" ∧
    ( HybridMMKV.initialize sampleEnv false (HybridMMKV.new SampleStore)
        { id := "app", path := some "/proc" }).outcome
      ≠ .threw "Failed to create MMKV instance! `path` cannot be empty!" := by
  decide

/-- C4 (amended). For every configuration that supplies a non-empty path, with a non-empty
id, an encryption key of at most 16 bytes and a valid mode, `initialize` on an object that
is not yet initialized passes that id and path to the engine factory, and when the factory
returns null it throws the generic "Failed to create MMKV instance!" and leaves the object
uninitialized. -/
theorem initialize_unopenable_path {E : Type} (env : Env E) (g : Bool) (self : HybridMMKV E)
    (config : Configuration) (p : String)
    (hpath : config.path = some p) (hp : p ≠ "") (hid : config.id ≠ "")
    (hkey : size (config.encryptionKey.getD "") ≤ 16)
    (hself : self.isInitialized = false)
    (hmode : ∀ raw, config.mode ≠ some (Mode.other raw)) :
    ∃ a : FactoryArgs,
      a.mmapID = config.id ∧ a.rootPath = some p ∧
      ( HybridMMKV.initialize env g self config).calls.getLast? = some a.call ∧
      (env.create a = none →
        ( HybridMMKV.initialize env g self config).outcome
          = .threw "Failed to create MMKV instance!" ∧
        ( HybridMMKV.initialize env g self config).self
          = { instance_ := none, isInitialized := false }) := by
  obtain ⟨hlast, -, hnone⟩ := initialize_of_valid_mode env g self config hself hmode
  have hpid : (processConfig env config).1.id = config.id := by
    rw [processConfig_id, if_neg hid]
  have hpp := processConfig_path_of_some env config p hpath
  have hpk : size ((processConfig env config).1.encryptionKey.getD "") ≤ 16 := by
    rw [processConfig_encryptionKey]
    exact hkey
  refine ⟨_, ?_, ?_, hlast, fun hc => ⟨?_, (hnone hc).2⟩⟩
  · rw [factoryArgs_eq]
    exact hpid
  · rw [factoryArgs_eq]
    simp [hpp, hp]
  · rw [(hnone hc).1, creationError_of_path _ p (hpid ▸ hid) hpk hpp hp]

/-- The sample environment, a fresh object, id `"app"` and a path the factory refuses. -/
theorem initialize_unopenable_path_witness :
    ∃ a : FactoryArgs,
      a.mmapID = "app" ∧ a.rootPath = some "/proc" ∧
      ( HybridMMKV.initialize sampleEnv false (HybridMMKV.new SampleStore)
          { id := "app", path := some "/proc" }).calls.getLast? = some a.call ∧
      (sampleEnv.create a = none →
        ( HybridMMKV.initialize sampleEnv false (HybridMMKV.new SampleStore)
            { id := "app", path := some "/proc" }).outcome
          = .threw "Failed to create MMKV instance!" ∧
        ( HybridMMKV.initialize sampleEnv false (HybridMMKV.new SampleStore)
            { id := "app", path := some "/proc" }).self
          = { instance_ := none, isInitialized := false }) :=
  initialize_unopenable_path sampleEnv false (HybridMMKV.new SampleStore)
    { id := "app", path := some "/proc" } "/proc" rfl (by decide) (by decide) (by decide) rfl
    (by simp)

/-! ## Atomic construction and the invariant of the fields -/

/-- Outcome of `initialize` on a state that satisfies the invariant: either it returns with
the object initialized and a non-null instance, or it throws with the object uninitialized. -/
theorem initialize_returns_or_throws {E : Type} (env : Env E) (g : Bool) (self : HybridMMKV E)
    (config : Configuration) (hinv : self.Inv) :
    (( HybridMMKV.initialize env g self config).outcome = .returned () ∧
      ( HybridMMKV.initialize env g self config).self.isInitialized = true ∧
      ∃ e, ( HybridMMKV.initialize env g self config).self.instance_ = some e) ∨
    (∃ what, ( HybridMMKV.initialize env g self config).outcome = .threw what ∧
      ( HybridMMKV.initialize env g self config).self.isInitialized = false) := by
  cases hself : self.isInitialized with
  | true =>
    left
    have hr : HybridMMKV.initialize env g self config
        = { isMMKVInitialized := g, outcome := .returned (), self := self, calls := [] } := by
      unfold HybridMMKV.initialize
      simp [hself]
    rw [hr]
    exact ⟨rfl, hself, hinv hself⟩
  | false =>
    by_cases hmode : ∃ raw, config.mode = some (Mode.other raw)
    · obtain ⟨raw, hraw⟩ := hmode
      right
      rw [initialize_of_invalid_mode env g self config raw hself hraw]
      exact ⟨_, rfl, hself⟩
    · have hvalid : ∀ raw, config.mode ≠ some (Mode.other raw) :=
        fun raw h => hmode ⟨raw, h⟩
      obtain ⟨-, hsome, hnone⟩ := initialize_of_valid_mode env g self config hself hvalid
      cases hc : env.create
          (factoryArgs env (processConfig env config).1 (baseModeOf env config)) with
      | none =>
        right
        refine ⟨_, (hnone hc).1, ?_⟩
        rw [(hnone hc).2]
      | some e =>
        left
        refine ⟨(hsome e hc).1, ?_, e, ?_⟩ <;> rw [(hsome e hc).2]

theorem initialize_keeps_inv {E : Type} (env : Env E) (g : Bool) (self : HybridMMKV E)
    (config : Configuration) (hinv : self.Inv) :
    ( HybridMMKV.initialize env g self config).self.Inv := by
  rcases initialize_returns_or_throws env g self config hinv with ⟨-, -, e, he⟩ | ⟨_, -, hf⟩
  · exact fun _ => ⟨e, he⟩
  · intro ht
    rw [hf] at ht
    cases ht

theorem getSize_self {E : Type} (env : Env E) (self : HybridMMKV E) :
    (HybridMMKV.getSize env self).self = self := by
  unfold HybridMMKV.getSize
  split_ifs
  · rfl
  · split <;> rfl

theorem getIsReadOnly_self {E : Type} (env : Env E) (self : HybridMMKV E) :
    (HybridMMKV.getIsReadOnly env self).self = self := by
  unfold HybridMMKV.getIsReadOnly
  split_ifs
  · rfl
  · split <;> rfl

theorem getBoolean_self {E : Type} (env : Env E) (self : HybridMMKV E) (key : String) :
    (HybridMMKV.getBoolean env self key).self = self := by
  unfold HybridMMKV.getBoolean
  split <;> rfl

theorem getString_self {E : Type} (env : Env E) (self : HybridMMKV E) (key : String) :
    (HybridMMKV.getString env self key).self = self := by
  unfold HybridMMKV.getString
  split <;> rfl

theorem getNumber_self {E : Type} (env : Env E) (self : HybridMMKV E) (key : String) :
    (HybridMMKV.getNumber env self key).self = self := by
  unfold HybridMMKV.getNumber
  split <;> rfl

theorem getBuffer_self {E : Type} (env : Env E) (self : HybridMMKV E) (key : String) :
    (HybridMMKV.getBuffer env self key).self = self := by
  unfold HybridMMKV.getBuffer
  split <;> rfl

theorem contains_self {E : Type} (env : Env E) (self : HybridMMKV E) (key : String) :
    (HybridMMKV.contains env self key).self = self := by
  unfold HybridMMKV.contains
  split <;> rfl

theorem getAllKeys_self {E : Type} (env : Env E) (self : HybridMMKV E) :
    (HybridMMKV.getAllKeys env self).self = self := by
  unfold HybridMMKV.getAllKeys
  split <;> rfl

theorem addOnValueChangedListener_self {E : Type} (env : Env E) (self : HybridMMKV E)
    (onValueChanged : Nat) :
    (HybridMMKV.addOnValueChangedListener env self onValueChanged).self = self := by
  unfold HybridMMKV.addOnValueChangedListener
  split <;> rfl

theorem set_keeps_inv {E : Type} (env : Env E) (self : HybridMMKV E) (key : String) (value : Value)
    (hinv : self.Inv) : (HybridMMKV.set env self key value).self.Inv := by
  unfold HybridMMKV.set
  split
  · exact hinv
  · exact fun _ => ⟨_, rfl⟩

theorem remove_keeps_inv {E : Type} (env : Env E) (self : HybridMMKV E) (key : String)
    (hinv : self.Inv) : (HybridMMKV.remove env self key).self.Inv := by
  unfold HybridMMKV.remove
  split
  · exact hinv
  · exact fun _ => ⟨_, rfl⟩

theorem clearAll_keeps_inv {E : Type} (env : Env E) (self : HybridMMKV E)
    (hinv : self.Inv) : (HybridMMKV.clearAll env self).self.Inv := by
  unfold HybridMMKV.clearAll
  split
  · exact hinv
  · exact fun _ => ⟨_, rfl⟩

theorem recrypt_keeps_inv {E : Type} (env : Env E) (self : HybridMMKV E) (key : Option String)
    (hinv : self.Inv) : (HybridMMKV.recrypt env self key).self.Inv := by
  unfold HybridMMKV.recrypt
  split
  · exact hinv
  · simp only []
    split_ifs <;> exact fun _ => ⟨_, rfl⟩

theorem trim_keeps_inv {E : Type} (env : Env E) (self : HybridMMKV E)
    (hinv : self.Inv) : (HybridMMKV.trim env self).self.Inv := by
  unfold HybridMMKV.trim
  split
  · exact hinv
  · exact fun _ => ⟨_, rfl⟩

theorem inv_of_reachable {E : Type} (self : HybridMMKV E) (hreach : Reachable self) :
    self.Inv := by
  induction hreach with
  | default =>
    intro h
    cases h
  | created env g config _ =>
    apply initialize_keeps_inv
    intro h
    cases h
  | afterInitialize env g config _ ih => exact initialize_keeps_inv env g _ config ih
  | afterGetSize env _ ih => rw [getSize_self]; exact ih
  | afterGetIsReadOnly env _ ih => rw [getIsReadOnly_self]; exact ih
  | afterSet env key value _ ih => exact set_keeps_inv env _ key value ih
  | afterGetBoolean env key _ ih => rw [getBoolean_self]; exact ih
  | afterGetString env key _ ih => rw [getString_self]; exact ih
  | afterGetNumber env key _ ih => rw [getNumber_self]; exact ih
  | afterGetBuffer env key _ ih => rw [getBuffer_self]; exact ih
  | afterContains env key _ ih => rw [contains_self]; exact ih
  | afterRemove env key _ ih => exact remove_keeps_inv env _ key ih
  | afterGetAllKeys env _ ih => rw [getAllKeys_self]; exact ih
  | afterClearAll env _ ih => exact clearAll_keeps_inv env _ ih
  | afterRecrypt env key _ ih => exact recrypt_keeps_inv env _ key ih
  | afterTrim env _ ih => exact trim_keeps_inv env _ ih
  | afterAddOnValueChangedListener env onValueChanged _ ih =>
    rw [addOnValueChangedListener_self]; exact ih

/-- C5. Construction is atomic. For every state `self` an object can be in (left by either
constructor or by any sequence of public operations) and every configuration, `initialize`
either returns normally leaving `isInitialized = true` with a non-null instance, or throws
leaving `isInitialized = false`; the same holds for the constructor taking a configuration;
and "`isInitialized` implies `instance` is non-null" holds in `self`, hence after every
operation. -/
theorem construction_is_atomic {E : Type} (self : HybridMMKV E) (hreach : Reachable self)
    (env : Env E) (g : Bool) (config : Configuration) :
    ((( HybridMMKV.initialize env g self config).outcome = .returned () ∧
        ( HybridMMKV.initialize env g self config).self.isInitialized = true ∧
        ∃ e, ( HybridMMKV.initialize env g self config).self.instance_ = some e) ∨
      (∃ what, ( HybridMMKV.initialize env g self config).outcome = .threw what ∧
        ( HybridMMKV.initialize env g self config).self.isInitialized = false)) ∧
    (((HybridMMKV.create env g config).outcome = .returned () ∧
        (HybridMMKV.create env g config).self.isInitialized = true ∧
        ∃ e, (HybridMMKV.create env g config).self.instance_ = some e) ∨
      (∃ what, (HybridMMKV.create env g config).outcome = .threw what ∧
        (HybridMMKV.create env g config).self.isInitialized = false)) ∧
    (self.isInitialized = true → ∃ e, self.instance_ = some e) :=
  ⟨initialize_returns_or_throws env g self config (inv_of_reachable self hreach),
   initialize_returns_or_throws env g _ config (fun h => by cases h),
   inv_of_reachable self hreach⟩

/-- The writable sample object, reached by construction and one `set`, initialized again. -/
theorem construction_is_atomic_witness :
    ((( HybridMMKV.initialize sampleEnv false writableObject { id := "" }).outcome
          = .returned () ∧
        ( HybridMMKV.initialize sampleEnv false writableObject { id := "" }).self.isInitialized
          = true ∧
        ∃ e, ( HybridMMKV.initialize sampleEnv false writableObject { id := "" }).self.instance_
          = some e) ∨
      (∃ what, ( HybridMMKV.initialize sampleEnv false writableObject { id := "" }).outcome
          = .threw what ∧
        ( HybridMMKV.initialize sampleEnv false writableObject { id := "" }).self.isInitialized
          = false)) ∧
    (((HybridMMKV.create sampleEnv false { id := "" }).outcome = .returned () ∧
        (HybridMMKV.create sampleEnv false { id := "" }).self.isInitialized = true ∧
        ∃ e, (HybridMMKV.create sampleEnv false { id := "" }).self.instance_ = some e) ∨
      (∃ what, (HybridMMKV.create sampleEnv false { id := "" }).outcome = .threw what ∧
        (HybridMMKV.create sampleEnv false { id := "" }).self.isInitialized = false)) ∧
    (writableObject.isInitialized = true → ∃ e, writableObject.instance_ = some e) :=
  construction_is_atomic writableObject
    (Reachable.afterSet sampleEnv "k" (.boolean true)
      (Reachable.created sampleEnv false { id := "app" } (by decide)))
    sampleEnv false { id := "" }

/-! ## Operations on an object that was never initialized -/

/-- C1 (the code at the failing input). On the default-constructed object only `getSize` and
`getIsReadOnly` throw "MMKV instance not initialized!" without touching the engine; each of
the other twelve public operations goes straight to `instance->...` and dereferences the
null pointer instead of throwing. -/
theorem uninitialized_operations {E : Type} (env : Env E) (key : String) (value : Value)
    (cryptKey : Option String) (onValueChanged : Nat) :
    HybridMMKV.getSize env (HybridMMKV.new E)
        = ⟨.threw "MMKV instance not initialized!", HybridMMKV.new E, []⟩ ∧
    HybridMMKV.getIsReadOnly env (HybridMMKV.new E)
        = ⟨.threw "MMKV instance not initialized!", HybridMMKV.new E, []⟩ ∧
    (HybridMMKV.set env (HybridMMKV.new E) key value).outcome = .nullDeref ∧
    (HybridMMKV.getBoolean env (HybridMMKV.new E) key).outcome = .nullDeref ∧
    (HybridMMKV.getString env (HybridMMKV.new E) key).outcome = .nullDeref ∧
    (HybridMMKV.getNumber env (HybridMMKV.new E) key).outcome = .nullDeref ∧
    (HybridMMKV.getBuffer env (HybridMMKV.new E) key).outcome = .nullDeref ∧
    (HybridMMKV.contains env (HybridMMKV.new E) key).outcome = .nullDeref ∧
    (HybridMMKV.remove env (HybridMMKV.new E) key).outcome = .nullDeref ∧
    (HybridMMKV.getAllKeys env (HybridMMKV.new E)).outcome = .nullDeref ∧
    (HybridMMKV.clearAll env (HybridMMKV.new E)).outcome = .nullDeref ∧
    (HybridMMKV.recrypt env (HybridMMKV.new E) cryptKey).outcome = .nullDeref ∧
    (HybridMMKV.trim env (HybridMMKV.new E)).outcome = .nullDeref ∧
    (HybridMMKV.addOnValueChangedListener env (HybridMMKV.new E) onValueChanged).outcome
        = .nullDeref :=
  ⟨rfl, rfl, rfl, rfl, rfl, rfl, rfl, rfl, rfl, rfl, rfl, rfl, rfl, rfl⟩

/-! ## `set`, `remove`, `clearAll` and the listener registry -/

theorem set_writes_then_notifies {E : Type} (env : Env E) (e : E) (b : Bool) (key : String)
    (value : Value) :
    HybridMMKV.set env { instance_ := some e, isInitialized := b } key value =
      { outcome := .returned (),
        self := { instance_ := some (env.set e value key), isInitialized := b },
        calls := [Call.set value key, Call.mmapID,
                  Call.notifyOnValueChanged (env.mmapID (env.set e value key)) key] } := by
  cases value <;> rfl

/-- C6. For every key and every value of any of the four alternatives, `set(key, value)` on
an initialized object returns normally after exactly three outside calls, in this order:
one engine write `set` of that same alternative and payload under that key, the read of the
engine `mmapID`, and one `notifyOnValueChanged` carrying that id and the key. -/
theorem set_writes_once_then_notifies_once {E : Type} (env : Env E) (e : E) (key : String)
    (value : Value) :
    HybridMMKV.set env { instance_ := some e, isInitialized := true } key value =
      { outcome := .returned (),
        self := { instance_ := some (env.set e value key), isInitialized := true },
        calls := [Call.set value key, Call.mmapID,
                  Call.notifyOnValueChanged (env.mmapID (env.set e value key)) key] } :=
  set_writes_then_notifies env e true key value

/-- C7 (the code at the failing input). `remove(key)` and `clearAll()` on an initialized
object make one engine call each and no call to the listener registry, for every engine and
key; on the writable sample object, which holds `"k"`, `remove("k")` does delete the key and
`clearAll()` does empty the store, and neither issues a notification. -/
theorem remove_and_clearAll_do_not_notify :
    (∀ (E : Type) (env : Env E) (e : E) (key : String),
      (HybridMMKV.remove env { instance_ := some e, isInitialized := true } key).calls
          = [Call.removeValueForKey key] ∧
      (HybridMMKV.clearAll env { instance_ := some e, isInitialized := true }).calls
          = [Call.clearAll]) ∧
    (HybridMMKV.contains sampleEnv writableObject "k").outcome = .returned true ∧
    (HybridMMKV.remove sampleEnv writableObject "k").outcome = .returned () ∧
    (HybridMMKV.contains sampleEnv (HybridMMKV.remove sampleEnv writableObject "k").self
        "k").outcome = .returned false ∧
    Call.notifyOnValueChanged "app" "k" ∉ (HybridMMKV.remove sampleEnv writableObject "k").calls ∧
    (HybridMMKV.getAllKeys sampleEnv writableObject).outcome = .returned ["k"] ∧
    (HybridMMKV.getAllKeys sampleEnv (HybridMMKV.clearAll sampleEnv writableObject).self).outcome
        = .returned [] ∧
    (HybridMMKV.clearAll sampleEnv writableObject).calls = [Call.clearAll] := by
  refine ⟨fun E env e key => ⟨rfl, rfl⟩, ?_, ?_, ?_, ?_, ?_, ?_, ?_⟩ <;> decide

/-! ## Read-only engines -/

/-- C8 (counterexample). On the read-only sample object (`getIsReadOnly` is `true`),
`set("k", true)`, `remove("k")` and `clearAll()` all return normally, none throws, and `set`
still calls `notifyOnValueChanged("app", "k")`. -/
theorem readOnly_mutations_are_not_rejected :
    (HybridMMKV.getIsReadOnly sampleEnv readOnlyObject).outcome = .returned true ∧
    HybridMMKV.set sampleEnv readOnlyObject "k" (.boolean true) =
      { outcome := .returned (), self := readOnlyObject,
        calls := [Call.set (.boolean true) "k", Call.mmapID,
                  Call.notifyOnValueChanged "app" "k"] } ∧
    HybridMMKV.remove sampleEnv readOnlyObject "k" =
      { outcome := .returned (), self := readOnlyObject, calls := [Call.removeValueForKey "k"] } ∧
    HybridMMKV.clearAll sampleEnv readOnlyObject =
      { outcome := .returned (), self := readOnlyObject, calls := [Call.clearAll] } := by
  decide

/-- C8 (amended). For every configuration with `readOnly = true` (and a valid mode),
`initialize` on an object that is not yet initialized hands the engine factory the base mode
with `MMKV_READ_ONLY` OR-ed in; and on the object initialized with the engine the factory
gives, each of `set(key, value)`, `remove(key)` and `clearAll()` raises no error: it returns
normally after passing the mutation on to the engine, whose answer alone decides the stored
content; `remove` and `clearAll` make no call to the listener registry. -/
theorem readOnly_mutations_are_forwarded {E : Type} (env : Env E) (g : Bool)
    (self : HybridMMKV E) (config : Configuration)
    (hro : config.readOnly = some true) (hself : self.isInitialized = false)
    (hmode : ∀ raw, config.mode ≠ some (Mode.other raw)) :
    ∃ a : FactoryArgs,
      a.mode = baseModeOf env config ||| env.MMKV_READ_ONLY ∧
      ( HybridMMKV.initialize env g self config).calls.getLast? = some a.call ∧
      ∀ e, env.create a = some e →
        ( HybridMMKV.initialize env g self config).outcome = .returned () ∧
        ( HybridMMKV.initialize env g self config).self
          = { instance_ := some e, isInitialized := true } ∧
        (∀ key value,
          (HybridMMKV.set env ( HybridMMKV.initialize env g self config).self key value).outcome
            = .returned () ∧
          (HybridMMKV.set env ( HybridMMKV.initialize env g self config).self key value).self
            = { instance_ := some (env.set e value key), isInitialized := true } ∧
          (HybridMMKV.set env ( HybridMMKV.initialize env g self config).self key
              value).calls.head? = some (Call.set value key)) ∧
        (∀ key,
          HybridMMKV.remove env ( HybridMMKV.initialize env g self config).self key =
            { outcome := .returned (),
              self := { instance_ := some (env.removeValueForKey e key), isInitialized := true },
              calls := [Call.removeValueForKey key] }) ∧
        HybridMMKV.clearAll env ( HybridMMKV.initialize env g self config).self =
          { outcome := .returned (),
            self := { instance_ := some (env.clearAll e), isInitialized := true },
            calls := [Call.clearAll] } := by
  obtain ⟨hlast, hsome, -⟩ := initialize_of_valid_mode env g self config hself hmode
  refine ⟨_, ?_, hlast, fun e he => ?_⟩
  · rw [factoryArgs_eq]
    simp [processConfig_readOnly, hro]
  · obtain ⟨hout, hs⟩ := hsome e he
    refine ⟨hout, hs, ?_, ?_, ?_⟩
    · intro key value
      rw [hs, set_writes_then_notifies]
      exact ⟨rfl, rfl, rfl⟩
    · intro key
      rw [hs]
      rfl
    · rw [hs]
      rfl

/-- The sample environment, a fresh object and a read-only configuration. -/
theorem readOnly_mutations_are_forwarded_witness :
    ∃ a : FactoryArgs,
      a.mode = baseModeOf sampleEnv { id := "app", readOnly := some true }
                 ||| sampleEnv.MMKV_READ_ONLY ∧
      ( HybridMMKV.initialize sampleEnv false (HybridMMKV.new SampleStore)
          { id := "app", readOnly := some true }).calls.getLast? = some a.call ∧
      ∀ e, sampleEnv.create a = some e →
        ( HybridMMKV.initialize sampleEnv false (HybridMMKV.new SampleStore)
            { id := "app", readOnly := some true }).outcome = .returned () ∧
        ( HybridMMKV.initialize sampleEnv false (HybridMMKV.new SampleStore)
            { id := "app", readOnly := some true }).self
          = { instance_ := some e, isInitialized := true } ∧
        (∀ key value,
          (HybridMMKV.set sampleEnv ( HybridMMKV.initialize sampleEnv false
              (HybridMMKV.new SampleStore) { id := "app", readOnly := some true }).self key
              value).outcome = .returned () ∧
          (HybridMMKV.set sampleEnv ( HybridMMKV.initialize sampleEnv false
              (HybridMMKV.new SampleStore) { id := "app", readOnly := some true }).self key
              value).self
            = { instance_ := some (sampleEnv.set e value key), isInitialized := true } ∧
          (HybridMMKV.set sampleEnv ( HybridMMKV.initialize sampleEnv false
              (HybridMMKV.new SampleStore) { id := "app", readOnly := some true }).self key
              value).calls.head? = some (Call.set value key)) ∧
        (∀ key,
          HybridMMKV.remove sampleEnv ( HybridMMKV.initialize sampleEnv false
              (HybridMMKV.new SampleStore) { id := "app", readOnly := some true }).self key =
            { outcome := .returned (),
              self := { instance_ := some (sampleEnv.removeValueForKey e key),
                        isInitialized := true },
              calls := [Call.removeValueForKey key] }) ∧
        HybridMMKV.clearAll sampleEnv ( HybridMMKV.initialize sampleEnv false
            (HybridMMKV.new SampleStore) { id := "app", readOnly := some true }).self =
          { outcome := .returned (),
            self := { instance_ := some (sampleEnv.clearAll e), isInitialized := true },
            calls := [Call.clearAll] } :=
  readOnly_mutations_are_forwarded sampleEnv false (HybridMMKV.new SampleStore)
    { id := "app", readOnly := some true } rfl rfl (by simp)

/-! ## What the factory is handed -/

/-- C10 (counterexample). On an Apple platform with the app-group directory
"/group/shared", a path that is present but empty reaches the factory as null, whereas an
absent path reaches it as the app-group directory: the two are not passed alike. -/
theorem empty_path_differs_from_absent_path_on_apple :
    ( HybridMMKV.initialize appleEnv false (HybridMMKV.new SampleStore)
        { id := "app", path := some "" }).calls.getLast?
      = some (Call.mmkvWithID "app" none 1 none none) ∧
    ( HybridMMKV.initialize appleEnv false (HybridMMKV.new SampleStore)
        { id := "app", path := none }).calls.getLast?
      = some (Call.mmkvWithID "app" none 1 none (some "/group/shared")) ∧
    HybridMMKV.initialize appleEnv false (HybridMMKV.new SampleStore)
        { id := "app", path := some "" }
      ≠ HybridMMKV.initialize appleEnv false (HybridMMKV.new SampleStore)
        { id := "app", path := none } := by
  decide

/-- C10 (amended). On an object that is not yet initialized, what `initialize` hands the
engine factory is fully determined by the configuration and the platform. A mode that is
neither enumerator makes it throw "Invalid MMKV Mode value!" with no factory call. Otherwise
the factory is called once, with: the mode `MMKV_SINGLE_PROCESS` when `config.mode` is absent
or `SINGLE_PROCESS` and `MMKV_MULTI_PROCESS` when it is `MULTI_PROCESS`, with `MMKV_READ_ONLY`
OR-ed in if and only if `config.readOnly` is present and true; the encryptionKey, or null
when it is absent or empty; the path, or null when it is empty, and for an absent path null
except on Apple with a non-empty app-group directory, which is then passed instead. An empty
encryptionKey is treated exactly as an absent one, and on a non-Apple platform an empty path
exactly as an absent one. -/
theorem initialize_factory_arguments {E : Type} (env : Env E) (g : Bool) (self : HybridMMKV E)
    (config : Configuration) (hself : self.isInitialized = false) :
    (∀ raw, config.mode = some (Mode.other raw) →
      ( HybridMMKV.initialize env g self config).outcome = .threw "Invalid MMKV Mode value!" ∧
      ∀ a : FactoryArgs, a.call ∉ ( HybridMMKV.initialize env g self config).calls) ∧
    ((∀ raw, config.mode ≠ some (Mode.other raw)) →
      ∃ a : FactoryArgs,
        ( HybridMMKV.initialize env g self config).calls.getLast? = some a.call ∧
        a.mode = (if config.readOnly = some true
                  then baseModeOf env config ||| env.MMKV_READ_ONLY
                  else baseModeOf env config) ∧
        a.cryptKey = (if config.encryptionKey = some "" then none else config.encryptionKey) ∧
        a.rootPath =
          (match config.path with
           | some p => if p = "" then none else some p
           | none =>
             if env.isApple = true ∧ env.appGroupDirectory ≠ "" then some env.appGroupDirectory
             else none)) ∧
    HybridMMKV.initialize env g self { config with encryptionKey := some "" }
      = HybridMMKV.initialize env g self { config with encryptionKey := none } ∧
    (env.isApple = false →
      HybridMMKV.initialize env g self { config with path := some "" }
        = HybridMMKV.initialize env g self { config with path := none }) := by
  refine ⟨?_, ?_, ?_, ?_⟩
  · intro raw hraw
    rw [initialize_of_invalid_mode env g self config raw hself hraw]
    refine ⟨rfl, fun a ha => ?_⟩
    have h1 : a.call ∉ (ensureMMKVInitialized env g).2 := by
      unfold ensureMMKVInitialized FactoryArgs.call
      split_ifs <;> simp
    have h2 : a.call ∉ (processConfig env config).2 := by
      unfold processConfig FactoryArgs.call
      simp only []
      split_ifs <;> simp
    rcases List.mem_append.1 ha with h | h
    · exact h1 h
    · exact h2 h
  · intro hmode
    obtain ⟨hlast, -, -⟩ := initialize_of_valid_mode env g self config hself hmode
    refine ⟨_, hlast, ?_, ?_, ?_⟩
    · rw [factoryArgs_eq]
      simp only [processConfig_readOnly]
    · rw [factoryArgs_eq]
      simp only [processConfig_encryptionKey]
    · rw [factoryArgs_eq]
      cases hp : config.path with
      | none =>
        simp only [processConfig_path_of_none env config hp]
        split_ifs with h1 h2 <;> simp_all
      | some p =>
        simp only [processConfig_path_of_some env config p hp]
        simp
  · unfold HybridMMKV.initialize
    rw [processConfig_with_encryptionKey env config (some ""),
      processConfig_with_encryptionKey env config none]
    simp only [HybridMMKV.getMMKVMode, factoryArgs_empty_key, creationError_empty_key]
  · intro happle
    unfold HybridMMKV.initialize
    rw [processConfig_with_path env config (some "") happle,
      processConfig_with_path env config none happle]
    simp only [HybridMMKV.getMMKVMode, factoryArgs_empty_path, creationError_empty_path]

/-- The Apple sample environment, a fresh object, an empty key and `readOnly = true`. -/
theorem initialize_factory_arguments_witness :
    (∀ raw, ({ id := "app", encryptionKey := some "", readOnly := some true }
        : Configuration).mode = some (Mode.other raw) →
      ( HybridMMKV.initialize appleEnv false (HybridMMKV.new SampleStore)
          { id := "app", encryptionKey := some "", readOnly := some true }).outcome
        = .threw "Invalid MMKV Mode value!" ∧
      ∀ a : FactoryArgs, a.call ∉ ( HybridMMKV.initialize appleEnv false
          (HybridMMKV.new SampleStore)
          { id := "app", encryptionKey := some "", readOnly := some true }).calls) ∧
    ((∀ raw, ({ id := "app", encryptionKey := some "", readOnly := some true }
        : Configuration).mode ≠ some (Mode.other raw)) →
      ∃ a : FactoryArgs,
        ( HybridMMKV.initialize appleEnv false (HybridMMKV.new SampleStore)
            { id := "app", encryptionKey := some "", readOnly := some true }).calls.getLast?
          = some a.call ∧
        a.mode = (if ({ id := "app", encryptionKey := some "", readOnly := some true }
                      : Configuration).readOnly = some true
                  then baseModeOf appleEnv
                        { id := "app", encryptionKey := some "", readOnly := some true }
                        ||| appleEnv.MMKV_READ_ONLY
                  else baseModeOf appleEnv
                        { id := "app", encryptionKey := some "", readOnly := some true }) ∧
        a.cryptKey = (if ({ id := "app", encryptionKey := some "", readOnly := some true }
                          : Configuration).encryptionKey = some "" then none
                      else ({ id := "app", encryptionKey := some "", readOnly := some true }
                          : Configuration).encryptionKey) ∧
        a.rootPath =
          (match ({ id := "app", encryptionKey := some "", readOnly := some true }
              : Configuration).path with
           | some p => if p = "" then none else some p
           | none =>
             if appleEnv.isApple = true ∧ appleEnv.appGroupDirectory ≠ ""
             then some appleEnv.appGroupDirectory
             else none)) ∧
    HybridMMKV.initialize appleEnv false (HybridMMKV.new SampleStore)
        { ({ id := "app", encryptionKey := some "", readOnly := some true } : Configuration)
          with encryptionKey := some "" }
      = HybridMMKV.initialize appleEnv false (HybridMMKV.new SampleStore)
        { ({ id := "app", encryptionKey := some "", readOnly := some true } : Configuration)
          with encryptionKey := none } ∧
    (appleEnv.isApple = false →
      HybridMMKV.initialize appleEnv false (HybridMMKV.new SampleStore)
          { ({ id := "app", encryptionKey := some "", readOnly := some true } : Configuration)
            with path := some "" }
        = HybridMMKV.initialize appleEnv false (HybridMMKV.new SampleStore)
          { ({ id := "app", encryptionKey := some "", readOnly := some true } : Configuration)
            with path := none }) :=
  initialize_factory_arguments appleEnv false (HybridMMKV.new SampleStore)
    { id := "app", encryptionKey := some "", readOnly := some true } rfl

/-! ## `recrypt` -/

/-- C9 (counterexample). On the read-only sample object the engine `reKey` returns `false`,
and `recrypt` with a new key, and likewise with no key, throws instead of reporting a value. -/
theorem recrypt_failure_is_thrown :
    (sampleEnv.reKey { mmapID := "app", readOnly := true, cryptKey := "", entries := [] }
        "secret").1 = false ∧
    readOnlyObject.instance_
      = some { mmapID := "app", readOnly := true, cryptKey := "", entries := [] } ∧
    (HybridMMKV.recrypt sampleEnv readOnlyObject (some "secret")).outcome
      = .threw "Failed to recrypt MMKV instance!" ∧
    (HybridMMKV.recrypt sampleEnv readOnlyObject none).outcome
      = .threw "Failed to recrypt MMKV instance!" ∧
    ¬ ∃ v, (HybridMMKV.recrypt sampleEnv readOnlyObject (some "secret")).outcome = .returned v := by
  refine ⟨by decide, by decide, by decide, by decide, ?_⟩
  rintro ⟨v, hv⟩
  have hthrown : (HybridMMKV.recrypt sampleEnv readOnlyObject (some "secret")).outcome
      = .threw "Failed to recrypt MMKV instance!" := by decide
  rw [hthrown] at hv
  cases hv

/-- C9 (amended). Whenever the engine `reKey` returns `false` for the requested key (the
empty string when no key is given), `recrypt` on an initialized object makes that one engine
call and throws "Failed to recrypt MMKV instance!"; it is a `void` function and reports no
value. -/
theorem recrypt_throws_when_reKey_fails {E : Type} (env : Env E) (e : E) (key : Option String)
    (hfail : (env.reKey e (key.getD "")).1 = false) :
    (HybridMMKV.recrypt env { instance_ := some e, isInitialized := true } key).outcome
        = .threw "Failed to recrypt MMKV instance!" ∧
    (HybridMMKV.recrypt env { instance_ := some e, isInitialized := true } key).calls
        = [Call.reKey (key.getD "")] := by
  cases key with
  | none => simp [HybridMMKV.recrypt, Option.getD] at hfail ⊢; simp [hfail]
  | some k => simp [HybridMMKV.recrypt, Option.getD] at hfail ⊢; simp [hfail]

/-- The read-only sample store, whose `reKey` returns `false`. -/
theorem recrypt_throws_when_reKey_fails_witness :
    (HybridMMKV.recrypt sampleEnv
        { instance_ := some { mmapID := "app", readOnly := true, cryptKey := "", entries := [] },
          isInitialized := true } (some "secret")).outcome
        = .threw "Failed to recrypt MMKV instance!" ∧
    (HybridMMKV.recrypt sampleEnv
        { instance_ := some { mmapID := "app", readOnly := true, cryptKey := "", entries := [] },
          isInitialized := true } (some "secret")).calls
        = [Call.reKey ((some "secret").getD "")] :=
  recrypt_throws_when_reKey_fails sampleEnv
    { mmapID := "app", readOnly := true, cryptKey := "", entries := [] } (some "secret")
    (by decide)

end Mmkv

